import Mathlib

/-!
Shallow embedding of the ebert GitHub-profile risk analyzer (main.go).

Modelling conventions:
* Go `int` fields are embedded as `Int` (Go ints are signed and the code
  performs no validation of upstream JSON values).  Go's 64-bit `+=` wraps
  on overflow; the metrics accumulations whose summands are unbounded
  inputs (star, fork and commit totals) are therefore modelled with a
  wrapping two's-complement addition `goAdd`.  The unit `++` increments
  are bounded by the slice length, which in Go is at most 2^63 - 1, so
  they cannot wrap and plain addition models them exactly.
* Go `float64` arithmetic is embedded as exact rational arithmetic over `ℚ`.
  Every constant of the scoring engine (50.0, 0.3, 0.5, 0.1, 20, ...) is
  exactly representable, and all adjustments are integer-valued, so the
  rational model agrees with the float model everywhere except at
  astronomically large counter values where a float division could round
  across a threshold.
* `time.Time` values are embedded as rationals measuring days since an
  arbitrary epoch; `now.Sub(t).Hours()/24` becomes `now - t`.
* An event's `Payload.Commits` slice is embedded by its length (a `Nat`),
  which is the only thing the code reads from it.
-/

/-- Model of the Go struct `GitHubUser` (main.go lines 14-29).  Timestamps
are rational days since an arbitrary epoch. -/
structure GitHubUser where
  login : String
  name : String
  company : String
  blog : String
  email : String
  bio : String
  publicRepos : Int
  followers : Int
  following : Int
  createdAt : ℚ
  updatedAt : ℚ
  avatarURL : String
  htmlURL : String
  twitterUsername : String
deriving Repr, DecidableEq

/-- Model of the Go struct `GitHubRepo` (main.go lines 31-44). -/
structure GitHubRepo where
  name : String
  fullName : String
  description : String
  language : String
  stargazersCount : Int
  forksCount : Int
  archived : Bool
  updatedAt : ℚ
  createdAt : ℚ
  topics : List String
  hasPages : Bool
  htmlURL : String
deriving Repr, DecidableEq

/-- Model of the Go struct `GitHubEvent` (main.go lines 46-52).  The payload
commit slice is modelled by its length, the only datum the analyzer reads. -/
structure GitHubEvent where
  type : String
  createdAt : ℚ
  payloadCommits : Nat
deriving Repr, DecidableEq

/-- Model of the Go struct `Metrics` (main.go lines 63-74). -/
structure Metrics where
  accountAgeDays : Int
  repos : Int
  stars : Int
  forks : Int
  followers : Int
  recentCommits : Int
  recentlyUpdated : Int
  archived : Int
  npmPackages : Int
  pythonPackages : Int
deriving Repr, DecidableEq

/-- Model of the Go struct `RiskScores` (main.go lines 55-61). -/
structure RiskScores where
  identity : ℚ
  activity : ℚ
  quality : ℚ
  maintenance : ℚ
  community : ℚ
deriving Repr, DecidableEq

/-- Model of Go's `int(x)` conversion from `float64`: truncation toward
zero (main.go line 201). -/
def truncInt (q : ℚ) : Int :=
  if 0 ≤ q then ⌊q⌋ else ⌈q⌉

/-- The account age computation of `performAnalysis` (main.go line 201):
`int(now.Sub(user.CreatedAt).Hours() / 24)`, with times in days. -/
def accountAgeOf (user : GitHubUser) (now : ℚ) : Int :=
  truncInt (now - user.createdAt)

/-- Model of Go's 64-bit signed `+` on `int`: two's-complement wraparound
on overflow, with 9223372036854775808 = 2^63. -/
def goAdd (a b : Int) : Int :=
  (a + b + 9223372036854775808) % 18446744073709551616 - 9223372036854775808

/-- The per-repository body of the loop in `calculateMetrics`
(main.go lines 249-267).  The star and fork totals use the wrapping
`goAdd` because their summands are unbounded inputs; the unit increments
cannot overflow (bounded by the slice length, below 2^63 in Go). -/
def metricsRepoStep (now : ℚ) (m : Metrics) (repo : GitHubRepo) : Metrics :=
  let m1 := { m with stars := goAdd m.stars repo.stargazersCount,
                     forks := goAdd m.forks repo.forksCount }
  let m2 := if repo.archived then { m1 with archived := m1.archived + 1 } else m1
  let m3 := if now - repo.updatedAt ≤ 30 then
      { m2 with recentlyUpdated := m2.recentlyUpdated + 1 } else m2
  if repo.language = "JavaScript" ∨ repo.language = "TypeScript" then
    { m3 with npmPackages := m3.npmPackages + 1 }
  else if repo.language = "Python" then
    { m3 with pythonPackages := m3.pythonPackages + 1 }
  else m3

/-- The per-event body of the loop in `calculateMetrics`
(main.go lines 270-275); the commit total uses the wrapping `goAdd`. -/
def metricsEventStep (now : ℚ) (m : Metrics) (e : GitHubEvent) : Metrics :=
  if now - e.createdAt ≤ 90 ∧ e.type = "PushEvent" then
    { m with recentCommits := goAdd m.recentCommits (e.payloadCommits : Int) }
  else m

/-- Model of `calculateMetrics` (main.go lines 241-278). -/
def calculateMetrics (user : GitHubUser) (repos : List GitHubRepo)
    (events : List GitHubEvent) (accountAge : Int) (now : ℚ) : Metrics :=
  let m0 : Metrics :=
    { accountAgeDays := accountAge
      repos := (repos.length : Int)
      stars := 0
      forks := 0
      followers := user.followers
      recentCommits := 0
      recentlyUpdated := 0
      archived := 0
      npmPackages := 0
      pythonPackages := 0 }
  let m1 := repos.foldl (metricsRepoStep now) m0
  events.foldl (metricsEventStep now) m1

/-- Mathematical (non-wrapping) total of the star counts of a repository
list, used to state when the Go accumulation does not overflow. -/
def starsSum (repos : List GitHubRepo) : Int :=
  (repos.map (fun r => r.stargazersCount)).sum

/-- Mathematical total of the fork counts of a repository list. -/
def forksSum (repos : List GitHubRepo) : Int :=
  (repos.map (fun r => r.forksCount)).sum

/-- Mathematical total of the payload commit counts of an event list. -/
def commitsSum (events : List GitHubEvent) : Int :=
  (events.map (fun e => (e.payloadCommits : Int))).sum

/-- Model of `clamp` (main.go lines 460-468). -/
def clamp (value lo hi : ℚ) : ℚ :=
  if value < lo then lo
  else if value > hi then hi
  else value

/-- Model of `calculateIdentityScore` (main.go lines 280-308). -/
def calculateIdentityScore (user : GitHubUser) (accountAge : Int) : ℚ :=
  let score : ℚ := 50
  let score := if accountAge > 730 then score - 20
    else if accountAge > 365 then score - 10
    else if accountAge < 90 then score + 30
    else score
  let score := if user.company ≠ "" then score - 10 else score
  let score := if user.email ≠ "" then score - 5 else score
  let score := if user.blog ≠ "" then score - 5 else score
  let score := if user.twitterUsername ≠ "" then score - 5 else score
  let score := if user.name = "" then score + 10 else score
  clamp score 0 100

/-- Model of `calculateActivityScore` (main.go lines 310-329). -/
def calculateActivityScore (metrics : Metrics) (accountAge totalRepos : Int) : ℚ :=
  let score : ℚ := 50
  let commitsPerMonth : ℚ := (metrics.recentCommits : ℚ) / 3
  let score := if commitsPerMonth > 20 then score - 20
    else if commitsPerMonth > 10 then score - 10
    else if commitsPerMonth < 2 then score + 20
    else score
  let score := if metrics.recentlyUpdated = 0 ∧ totalRepos > 0 then score + 30
    else if (metrics.recentlyUpdated : ℚ) > (totalRepos : ℚ) * (3/10) then score - 10
    else score
  clamp score 0 100

/-- Model of `calculateQualityScore` (main.go lines 331-353). -/
def calculateQualityScore (repos : List GitHubRepo) (metrics : Metrics) : ℚ :=
  let score : ℚ := 50
  if repos.length = 0 then score
  else
    let avgStars : ℚ := (metrics.stars : ℚ) / (repos.length : ℚ)
    let score := if avgStars > 50 then score - 20
      else if avgStars > 10 then score - 10
      else if avgStars < 1 then score + 10
      else score
    let score := if metrics.stars > 0 ∧
        (metrics.forks : ℚ) > (metrics.stars : ℚ) * (1/10) then score - 10
      else score
    clamp score 0 100

/-- Model of `calculateMaintenanceScore` (main.go lines 355-380). -/
def calculateMaintenanceScore (metrics : Metrics) (totalRepos : Int) : ℚ :=
  let score : ℚ := 50
  if totalRepos = 0 then score
  else
    let archivedFrac : ℚ := (metrics.archived : ℚ) / (totalRepos : ℚ)
    let activeFrac : ℚ := (metrics.recentlyUpdated : ℚ) / (totalRepos : ℚ)
    let score := if archivedFrac > 1/2 then score + 30
      else if archivedFrac > 3/10 then score + 15
      else score
    let score := if activeFrac > 1/2 then score - 20
      else if activeFrac > 3/10 then score - 10
      else if activeFrac = 0 ∧ totalRepos > 0 then score + 20
      else score
    clamp score 0 100

/-- Model of `calculateCommunityScore` (main.go lines 382-404). -/
def calculateCommunityScore (metrics : Metrics) : ℚ :=
  let score : ℚ := 50
  let score := if metrics.followers > 500 then score - 25
    else if metrics.followers > 100 then score - 15
    else if metrics.followers > 50 then score - 10
    else if metrics.followers < 10 then score + 15
    else score
  let score := if metrics.stars > 1000 then score - 15
    else if metrics.stars > 100 then score - 10
    else if metrics.stars < 10 ∧ metrics.repos > 5 then score + 10
    else score
  clamp score 0 100

/-- The `RiskScores` construction of `performAnalysis` (main.go lines 207-213). -/
def computeRiskScores (user : GitHubUser) (repos : List GitHubRepo)
    (metrics : Metrics) (accountAge : Int) : RiskScores :=
  { identity := calculateIdentityScore user accountAge
    activity := calculateActivityScore metrics accountAge (repos.length : Int)
    quality := calculateQualityScore repos metrics
    maintenance := calculateMaintenanceScore metrics (repos.length : Int)
    community := calculateCommunityScore metrics }

/-- The aggregate score of `performAnalysis` (main.go line 215): unweighted
mean of the five axis scores. -/
def overallScore (s : RiskScores) : ℚ :=
  (s.identity + s.activity + s.quality + s.maintenance + s.community) / 5

/-- The risk-tier assignment of `performAnalysis` (main.go lines 217-223). -/
def riskLevel (overall : ℚ) : String :=
  if overall ≥ 60 then "high"
  else if overall ≥ 30 then "medium"
  else "low"

/-- End-to-end metrics of one analysis run: `performAnalysis` lines 199-204. -/
def analysisMetrics (user : GitHubUser) (repos : List GitHubRepo)
    (events : List GitHubEvent) (now : ℚ) : Metrics :=
  calculateMetrics user repos events (accountAgeOf user now) now

/-- End-to-end axis scores of one analysis run: `performAnalysis` lines 199-213. -/
def analysisScores (user : GitHubUser) (repos : List GitHubRepo)
    (events : List GitHubEvent) (now : ℚ) : RiskScores :=
  computeRiskScores user repos (analysisMetrics user repos events now)
    (accountAgeOf user now)

/-- The age red-flag message of `generateFlags` (main.go line 411); Go's
integer division truncates toward zero, hence `Int.tdiv`. -/
def ageRedFlagMsg (accountAge : Int) : String :=
  "Account only " ++ toString (Int.tdiv accountAge 30) ++ " months old - limited history"

/-- The established-account positive message of `generateFlags` (main.go line 413). -/
def agePositiveMsg (accountAge : Int) : String :=
  "Established account (" ++ toString (Int.tdiv accountAge 365) ++ " years)"

/-- Account-age contribution to the red-flag list (main.go lines 410-414). -/
def ageRedFlags (accountAge : Int) : List String :=
  if accountAge < 180 then [ageRedFlagMsg accountAge] else []

/-- Account-age contribution to the positives list (main.go lines 410-414):
the positive branch is the `else if` of the red-flag branch. -/
def agePositives (accountAge : Int) : List String :=
  if accountAge < 180 then []
  else if accountAge > 365 then [agePositiveMsg accountAge]
  else []

/-- Follower contribution to the warnings list (main.go lines 417-421). -/
def followerWarnings (m : Metrics) : List String :=
  if m.followers < 10 then ["Low follower count - limited community validation"] else []

/-- Follower contribution to the positives list (main.go lines 417-421). -/
def followerPositives (m : Metrics) : List String :=
  if m.followers < 10 then []
  else if m.followers > 100 then
    ["Strong community following (" ++ toString m.followers ++ " followers)"]
  else []

/-- Recent-activity contribution to the warnings list (main.go lines 424-428). -/
def activityWarnings (m : Metrics) : List String :=
  if m.recentCommits < 10 then ["Low recent activity (last 90 days)"] else []

/-- Recent-activity contribution to the positives list (main.go lines 424-428). -/
def activityPositives (m : Metrics) : List String :=
  if m.recentCommits < 10 then []
  else if m.recentCommits > 50 then
    ["Active contributor (" ++ toString m.recentCommits ++ " commits in 90 days)"]
  else []

/-- Archived-repositories contribution to the red-flag list (main.go lines 431-433). -/
def archivedRedFlags (m : Metrics) (totalRepos : Int) : List String :=
  if totalRepos > 0 ∧ (m.archived : ℚ) / (totalRepos : ℚ) > 3/10 then
    ["High proportion of archived repos (" ++ toString m.archived ++ "/" ++
      toString totalRepos ++ ")"]
  else []

/-- Contact-information contribution to the warnings list (main.go lines 436-445). -/
def contactWarnings (u : GitHubUser) : List String :=
  if u.company = "" ∧ u.blog = "" ∧ u.email = "" then
    ["No verifiable contact information or affiliation"]
  else []

/-- Contact-information contribution to the positives list (main.go lines
436-445): fires only in the `else` branch of the no-contact warning. -/
def contactPositives (u : GitHubUser) : List String :=
  if u.company = "" ∧ u.blog = "" ∧ u.email = "" then []
  else
    (if u.company ≠ "" then ["Affiliated with: " ++ u.company] else []) ++
    (if u.blog ≠ "" then ["Has published website/blog"] else [])

/-- Stale-maintenance contribution to the red-flag list (main.go lines 448-450). -/
def maintenanceRedFlags (m : Metrics) (totalRepos : Int) : List String :=
  if m.recentlyUpdated = 0 ∧ totalRepos > 0 then
    ["No repositories updated in last 30 days"]
  else []

/-- Engagement contribution to the warnings list (main.go lines 453-455). -/
def engagementWarnings (m : Metrics) (totalRepos : Int) : List String :=
  if m.stars < 10 ∧ totalRepos > 5 then
    ["Low community engagement (stars/repos ratio)"]
  else []

/-- The three flag lists returned by `generateFlags` (main.go lines 406-458). -/
structure Flags where
  redFlags : List String
  warnings : List String
  positives : List String
deriving Repr, DecidableEq

/-- Model of `generateFlags` (main.go lines 406-458), as the in-order
concatenation of the per-rule contributions; append order matches the
source's append order within each category. -/
def generateFlags (user : GitHubUser) (metrics : Metrics)
    (accountAge totalRepos : Int) : Flags :=
  { redFlags := ageRedFlags accountAge ++ archivedRedFlags metrics totalRepos ++
      maintenanceRedFlags metrics totalRepos
    warnings := followerWarnings metrics ++ activityWarnings metrics ++
      contactWarnings user ++ engagementWarnings metrics totalRepos
    positives := agePositives accountAge ++ followerPositives metrics ++
      activityPositives metrics ++ contactPositives user }

/-- Concrete all-empty profile, used to instantiate proved theorems. -/
def uEmpty : GitHubUser :=
  { login := "x", name := "", company := "", blog := "", email := "", bio := "",
    publicRepos := 0, followers := 0, following := 0, createdAt := 0,
    updatedAt := 0, avatarURL := "", htmlURL := "", twitterUsername := "" }

/-- Concrete all-zero metrics bundle, used to instantiate proved theorems. -/
def mZero : Metrics :=
  { accountAgeDays := 0, repos := 0, stars := 0, forks := 0, followers := 0,
    recentCommits := 0, recentlyUpdated := 0, archived := 0, npmPackages := 0,
    pythonPackages := 0 }

/-- Metrics of the spec's boundary scenario: 10 repositories, 3 archived,
2 recently updated, 5 stars, 1 fork, 5 followers, 3 recent commits. -/
def mScenario : Metrics :=
  { accountAgeDays := 1000, repos := 10, stars := 5, forks := 1, followers := 5,
    recentCommits := 3, recentlyUpdated := 2, archived := 3, npmPackages := 0,
    pythonPackages := 0 }

/-- The boundary scenario with 5 of 10 repositories archived, so the
archived fraction is exactly one half. -/
def mScenarioHalf : Metrics := { mScenario with archived := 5 }

/-- Profile of the spec's identity scenario: no company, blog, email or
social handle, and an empty display name. -/
def uC6 : GitHubUser := uEmpty

/-- Metrics of the spec's identity scenario: account age 400 days, zero
repositories, followers and recent commits. -/
def mC6 : Metrics := { mZero with accountAgeDays := 400 }

/-- Profile whose creation timestamp lies 10 days after the injected now,
exercising the unguarded negative account age. -/
def uFuture : GitHubUser := { uEmpty with createdAt := 10 }

/-- Profiles used to witness that the scoring engine reads only the five
identity-relevant profile fields. -/
def uAlice : GitHubUser := { uEmpty with login := "alice" }

/-- Second witness profile, differing from `uAlice` only in fields the
scoring engine never reads. -/
def uBob : GitHubUser := { uEmpty with login := "bob", bio := "hi" }

theorem metricsRepoStep_spec (now : ℚ) (m : Metrics) (r : GitHubRepo) :
    (metricsRepoStep now m r).accountAgeDays = m.accountAgeDays ∧
    (metricsRepoStep now m r).repos = m.repos ∧
    (metricsRepoStep now m r).followers = m.followers ∧
    (metricsRepoStep now m r).recentCommits = m.recentCommits ∧
    (metricsRepoStep now m r).stars = goAdd m.stars r.stargazersCount ∧
    (metricsRepoStep now m r).forks = goAdd m.forks r.forksCount ∧
    m.archived ≤ (metricsRepoStep now m r).archived ∧
    (metricsRepoStep now m r).archived ≤ m.archived + 1 ∧
    m.recentlyUpdated ≤ (metricsRepoStep now m r).recentlyUpdated ∧
    (metricsRepoStep now m r).recentlyUpdated ≤ m.recentlyUpdated + 1 ∧
    m.npmPackages ≤ (metricsRepoStep now m r).npmPackages ∧
    m.pythonPackages ≤ (metricsRepoStep now m r).pythonPackages ∧
    (metricsRepoStep now m r).npmPackages + (metricsRepoStep now m r).pythonPackages ≤
      m.npmPackages + m.pythonPackages + 1 := by
  unfold metricsRepoStep
  split_ifs <;> simp <;> omega

theorem foldlRepo_spec (now : ℚ) (l : List GitHubRepo) (m : Metrics) :
    (l.foldl (metricsRepoStep now) m).accountAgeDays = m.accountAgeDays ∧
    (l.foldl (metricsRepoStep now) m).repos = m.repos ∧
    (l.foldl (metricsRepoStep now) m).followers = m.followers ∧
    (l.foldl (metricsRepoStep now) m).recentCommits = m.recentCommits ∧
    m.archived ≤ (l.foldl (metricsRepoStep now) m).archived ∧
    (l.foldl (metricsRepoStep now) m).archived ≤ m.archived + (l.length : Int) ∧
    m.recentlyUpdated ≤ (l.foldl (metricsRepoStep now) m).recentlyUpdated ∧
    (l.foldl (metricsRepoStep now) m).recentlyUpdated ≤ m.recentlyUpdated + (l.length : Int) ∧
    m.npmPackages ≤ (l.foldl (metricsRepoStep now) m).npmPackages ∧
    m.pythonPackages ≤ (l.foldl (metricsRepoStep now) m).pythonPackages ∧
    (l.foldl (metricsRepoStep now) m).npmPackages +
      (l.foldl (metricsRepoStep now) m).pythonPackages ≤
      m.npmPackages + m.pythonPackages + (l.length : Int) := by
  induction l generalizing m with
  | nil => simp
  | cons r t ih =>
    have hs := metricsRepoStep_spec now m r
    have ht := ih (metricsRepoStep now m r)
    simp only [List.foldl_cons, List.length_cons] at *
    push_cast at *
    omega

theorem goAdd_eq_of_no_overflow (a b : Int)
    (h1 : -9223372036854775808 ≤ a + b) (h2 : a + b < 9223372036854775808) :
    goAdd a b = a + b := by
  unfold goAdd
  omega

theorem starsSum_nonneg (l : List GitHubRepo)
    (h : ∀ r ∈ l, 0 ≤ r.stargazersCount) : 0 ≤ starsSum l := by
  unfold starsSum
  apply List.sum_nonneg
  intro x hx
  obtain ⟨r, hr, rfl⟩ := List.mem_map.mp hx
  exact h r hr

theorem forksSum_nonneg (l : List GitHubRepo)
    (h : ∀ r ∈ l, 0 ≤ r.forksCount) : 0 ≤ forksSum l := by
  unfold forksSum
  apply List.sum_nonneg
  intro x hx
  obtain ⟨r, hr, rfl⟩ := List.mem_map.mp hx
  exact h r hr

theorem commitsSum_nonneg (l : List GitHubEvent) : 0 ≤ commitsSum l := by
  unfold commitsSum
  apply List.sum_nonneg
  intro x hx
  obtain ⟨e, _, rfl⟩ := List.mem_map.mp hx
  exact Int.ofNat_nonneg e.payloadCommits

theorem foldlRepo_sums (now : ℚ) (l : List GitHubRepo) (m : Metrics)
    (hs0 : 0 ≤ m.stars) (hf0 : 0 ≤ m.forks)
    (hall : ∀ r ∈ l, 0 ≤ r.stargazersCount ∧ 0 ≤ r.forksCount)
    (hsb : m.stars + starsSum l < 9223372036854775808)
    (hfb : m.forks + forksSum l < 9223372036854775808) :
    (l.foldl (metricsRepoStep now) m).stars = m.stars + starsSum l ∧
    (l.foldl (metricsRepoStep now) m).forks = m.forks + forksSum l := by
  induction l generalizing m with
  | nil => simp [starsSum, forksSum]
  | cons r t ih =>
    have hr := hall r (List.mem_cons_self r t)
    have htail : ∀ x ∈ t, 0 ≤ x.stargazersCount ∧ 0 ≤ x.forksCount :=
      fun x hx => hall x (List.mem_cons_of_mem r hx)
    have hstn : 0 ≤ starsSum t := starsSum_nonneg t (fun x hx => (htail x hx).1)
    have hftn : 0 ≤ forksSum t := forksSum_nonneg t (fun x hx => (htail x hx).2)
    have hscons : starsSum (r :: t) = r.stargazersCount + starsSum t := by
      simp [starsSum]
    have hfcons : forksSum (r :: t) = r.forksCount + forksSum t := by
      simp [forksSum]
    rw [hscons] at hsb
    rw [hfcons] at hfb
    have hs := metricsRepoStep_spec now m r
    have hgs : goAdd m.stars r.stargazersCount = m.stars + r.stargazersCount :=
      goAdd_eq_of_no_overflow _ _ (by omega) (by omega)
    have hgf : goAdd m.forks r.forksCount = m.forks + r.forksCount :=
      goAdd_eq_of_no_overflow _ _ (by omega) (by omega)
    have ht := ih (metricsRepoStep now m r) (by omega) (by omega) htail
      (by omega) (by omega)
    simp only [List.foldl_cons, hscons, hfcons]
    omega

theorem foldlEvent_recentCommits (now : ℚ) (l : List GitHubEvent) (m : Metrics)
    (h0 : 0 ≤ m.recentCommits)
    (hb : m.recentCommits + commitsSum l < 9223372036854775808) :
    0 ≤ (l.foldl (metricsEventStep now) m).recentCommits ∧
    (l.foldl (metricsEventStep now) m).recentCommits ≤
      m.recentCommits + commitsSum l := by
  induction l generalizing m with
  | nil => simp [commitsSum]; omega
  | cons e t ih =>
    have hctn : 0 ≤ commitsSum t := commitsSum_nonneg t
    have hcnn : (0:Int) ≤ (e.payloadCommits : Int) := Int.ofNat_nonneg _
    have hccons : commitsSum (e :: t) = (e.payloadCommits : Int) + commitsSum t := by
      simp [commitsSum]
    rw [hccons] at hb
    simp only [List.foldl_cons, hccons]
    by_cases hq : now - e.createdAt ≤ 90 ∧ e.type = "PushEvent"
    · have hstep : metricsEventStep now m e =
          { m with recentCommits := goAdd m.recentCommits (e.payloadCommits : Int) } := by
        unfold metricsEventStep
        rw [if_pos hq]
      have hg : goAdd m.recentCommits (e.payloadCommits : Int) =
          m.recentCommits + (e.payloadCommits : Int) :=
        goAdd_eq_of_no_overflow _ _ (by omega) (by omega)
      rw [hstep]
      have ht := ih { m with recentCommits := goAdd m.recentCommits (e.payloadCommits : Int) }
        (by simp only; omega) (by simp only; omega)
      simp only at ht
      omega
    · have hstep : metricsEventStep now m e = m := by
        unfold metricsEventStep
        rw [if_neg hq]
      rw [hstep]
      have ht := ih m h0 (by omega)
      omega

theorem metricsEventStep_spec (now : ℚ) (m : Metrics) (e : GitHubEvent) :
    (metricsEventStep now m e).accountAgeDays = m.accountAgeDays ∧
    (metricsEventStep now m e).repos = m.repos ∧
    (metricsEventStep now m e).followers = m.followers ∧
    (metricsEventStep now m e).stars = m.stars ∧
    (metricsEventStep now m e).forks = m.forks ∧
    (metricsEventStep now m e).recentlyUpdated = m.recentlyUpdated ∧
    (metricsEventStep now m e).archived = m.archived ∧
    (metricsEventStep now m e).npmPackages = m.npmPackages ∧
    (metricsEventStep now m e).pythonPackages = m.pythonPackages := by
  unfold metricsEventStep
  split_ifs <;> simp

theorem foldlEvent_spec (now : ℚ) (l : List GitHubEvent) (m : Metrics) :
    (l.foldl (metricsEventStep now) m).accountAgeDays = m.accountAgeDays ∧
    (l.foldl (metricsEventStep now) m).repos = m.repos ∧
    (l.foldl (metricsEventStep now) m).followers = m.followers ∧
    (l.foldl (metricsEventStep now) m).stars = m.stars ∧
    (l.foldl (metricsEventStep now) m).forks = m.forks ∧
    (l.foldl (metricsEventStep now) m).recentlyUpdated = m.recentlyUpdated ∧
    (l.foldl (metricsEventStep now) m).archived = m.archived ∧
    (l.foldl (metricsEventStep now) m).npmPackages = m.npmPackages ∧
    (l.foldl (metricsEventStep now) m).pythonPackages = m.pythonPackages := by
  induction l generalizing m with
  | nil => simp
  | cons e t ih =>
    have hs := metricsEventStep_spec now m e
    have ht := ih (metricsEventStep now m e)
    simp only [List.foldl_cons] at *
    omega

theorem clamp_mem (v : ℚ) : 0 ≤ clamp v 0 100 ∧ clamp v 0 100 ≤ 100 := by
  unfold clamp
  split_ifs <;> constructor <;> linarith

theorem identityScore_mem (u : GitHubUser) (age : Int) :
    0 ≤ calculateIdentityScore u age ∧ calculateIdentityScore u age ≤ 100 := by
  unfold calculateIdentityScore
  exact clamp_mem _

theorem activityScore_mem (m : Metrics) (age t : Int) :
    0 ≤ calculateActivityScore m age t ∧ calculateActivityScore m age t ≤ 100 := by
  unfold calculateActivityScore
  exact clamp_mem _

theorem qualityScore_mem (repos : List GitHubRepo) (m : Metrics) :
    0 ≤ calculateQualityScore repos m ∧ calculateQualityScore repos m ≤ 100 := by
  unfold calculateQualityScore
  split
  · norm_num
  · exact clamp_mem _

theorem maintenanceScore_mem (m : Metrics) (t : Int) :
    0 ≤ calculateMaintenanceScore m t ∧ calculateMaintenanceScore m t ≤ 100 := by
  unfold calculateMaintenanceScore
  split
  · norm_num
  · exact clamp_mem _

theorem communityScore_mem (m : Metrics) :
    0 ≤ calculateCommunityScore m ∧ calculateCommunityScore m ≤ 100 := by
  unfold calculateCommunityScore
  exact clamp_mem _

theorem truncInt_nonneg (q : ℚ) (h : 0 ≤ q) : 0 ≤ truncInt q := by
  unfold truncInt
  rw [if_pos h]
  exact_mod_cast Int.le_floor.mpr (by exact_mod_cast h)

/-- C1: for every input (profile, repository list, event list, injected now),
each of the five axis scores of the analysis lies in [0, 100], and the
aggregate score, the unweighted arithmetic mean of the five axis scores,
also lies in [0, 100]. -/
theorem C1_axis_and_aggregate_bounded (user : GitHubUser) (repos : List GitHubRepo)
    (events : List GitHubEvent) (now : ℚ) :
    (0 ≤ (analysisScores user repos events now).identity ∧
      (analysisScores user repos events now).identity ≤ 100) ∧
    (0 ≤ (analysisScores user repos events now).activity ∧
      (analysisScores user repos events now).activity ≤ 100) ∧
    (0 ≤ (analysisScores user repos events now).quality ∧
      (analysisScores user repos events now).quality ≤ 100) ∧
    (0 ≤ (analysisScores user repos events now).maintenance ∧
      (analysisScores user repos events now).maintenance ≤ 100) ∧
    (0 ≤ (analysisScores user repos events now).community ∧
      (analysisScores user repos events now).community ≤ 100) ∧
    (0 ≤ overallScore (analysisScores user repos events now) ∧
      overallScore (analysisScores user repos events now) ≤ 100) := by
  have h1 := identityScore_mem user (accountAgeOf user now)
  have h2 := activityScore_mem (analysisMetrics user repos events now)
    (accountAgeOf user now) (repos.length : Int)
  have h3 := qualityScore_mem repos (analysisMetrics user repos events now)
  have h4 := maintenanceScore_mem (analysisMetrics user repos events now) (repos.length : Int)
  have h5 := communityScore_mem (analysisMetrics user repos events now)
  refine ⟨h1, h2, h3, h4, h5, ?_, ?_⟩ <;>
    · unfold overallScore analysisScores computeRiskScores
      dsimp only
      linarith [h1.1, h1.2, h2.1, h2.2, h3.1, h3.2, h4.1, h4.2, h5.1, h5.2]

/-- C2: the risk tier is a pure function of the aggregate score: "high" iff
the aggregate is at least 60, "medium" iff it is at least 30 and below 60,
"low" iff it is below 30; lower bounds inclusive, checked high-to-low. -/
theorem C2_risk_tier_of_aggregate (a : ℚ) :
    (riskLevel a = "high" ↔ 60 ≤ a) ∧
    (riskLevel a = "medium" ↔ 30 ≤ a ∧ a < 60) ∧
    (riskLevel a = "low" ↔ a < 30) := by
  unfold riskLevel
  split_ifs with h1 h2
  · exact ⟨⟨fun _ => h1, fun _ => rfl⟩,
      ⟨fun h => absurd h (by decide), fun h => absurd h1 (not_le.mpr h.2)⟩,
      ⟨fun h => absurd h (by decide), fun h => absurd h1 (not_le.mpr (by linarith))⟩⟩
  · exact ⟨⟨fun h => absurd h (by decide), fun h => absurd h h1⟩,
      ⟨fun _ => ⟨h2, not_le.mp h1⟩, fun _ => rfl⟩,
      ⟨fun h => absurd h (by decide), fun h => absurd h2 (not_le.mpr h)⟩⟩
  · exact ⟨⟨fun h => absurd h (by decide), fun h => absurd h h1⟩,
      ⟨fun h => absurd h (by decide), fun h => absurd h.1 h2⟩,
      ⟨fun _ => not_le.mp h2, fun _ => rfl⟩⟩

/-- C3: with zero repositories (empty repository list, total-repo count 0)
the Quality and Maintenance scores both equal exactly 50: the
zero-denominator short-circuit returns the baseline unmodified, both for
the score functions directly and through the analysis pipeline. -/
theorem C3_zero_repos_baseline (user : GitHubUser) (metrics : Metrics)
    (events : List GitHubEvent) (now : ℚ) :
    calculateQualityScore [] metrics = 50 ∧
    calculateMaintenanceScore metrics 0 = 50 ∧
    (analysisScores user [] events now).quality = 50 ∧
    (analysisScores user [] events now).maintenance = 50 := by
  exact ⟨rfl, rfl, rfl, rfl⟩

/-- C4 counterexample: a profile created 10 days after the injected now
yields a negative account-age counter, so not every counter of the Metrics
bundle is non-negative for every input. -/
theorem C4_counterexample : (analysisMetrics uFuture [] [] 0).accountAgeDays < 0 := by
  show accountAgeOf uFuture 0 < 0
  have h : (0:ℚ) - uFuture.createdAt = -10 := by norm_num [uFuture, uEmpty]
  unfold accountAgeOf truncInt
  rw [h, if_neg (by norm_num : ¬ (0:ℚ) ≤ -10)]
  have hceil : (⌈(-10:ℚ)⌉ : Int) = -10 := by exact_mod_cast Int.ceil_intCast (α := ℚ) (-10)
  omega

/-- C4 (amended): every counter of the Metrics bundle is non-negative
provided the profile creation time is not after the injected now, the
follower count is non-negative, each repository's star and fork counts are
non-negative, and the mathematical star, fork and commit totals stay below
2^63 so that the 64-bit accumulation does not wrap; the code validates
none of these inputs, so outside them negative values propagate. -/
theorem C4_amended_counters_nonneg (user : GitHubUser) (repos : List GitHubRepo)
    (events : List GitHubEvent) (now : ℚ)
    (hc : user.createdAt ≤ now) (hf : 0 ≤ user.followers)
    (hr : ∀ r ∈ repos, 0 ≤ r.stargazersCount ∧ 0 ≤ r.forksCount)
    (hsb : starsSum repos < 9223372036854775808)
    (hfb : forksSum repos < 9223372036854775808)
    (hcb : commitsSum events < 9223372036854775808) :
    0 ≤ (analysisMetrics user repos events now).accountAgeDays ∧
    0 ≤ (analysisMetrics user repos events now).repos ∧
    0 ≤ (analysisMetrics user repos events now).stars ∧
    0 ≤ (analysisMetrics user repos events now).forks ∧
    0 ≤ (analysisMetrics user repos events now).followers ∧
    0 ≤ (analysisMetrics user repos events now).recentCommits ∧
    0 ≤ (analysisMetrics user repos events now).recentlyUpdated ∧
    0 ≤ (analysisMetrics user repos events now).archived ∧
    0 ≤ (analysisMetrics user repos events now).npmPackages ∧
    0 ≤ (analysisMetrics user repos events now).pythonPackages := by
  have hage : 0 ≤ accountAgeOf user now :=
    truncInt_nonneg _ (by linarith [sub_nonneg.mpr hc])
  have hstn : 0 ≤ starsSum repos := starsSum_nonneg repos (fun x hx => (hr x hx).1)
  have hftn : 0 ≤ forksSum repos := forksSum_nonneg repos (fun x hx => (hr x hx).2)
  have hctn : 0 ≤ commitsSum events := commitsSum_nonneg events
  unfold analysisMetrics calculateMetrics
  dsimp only
  have h1 := foldlRepo_spec now repos
    { accountAgeDays := accountAgeOf user now, repos := (repos.length : Int), stars := 0,
      forks := 0, followers := user.followers, recentCommits := 0, recentlyUpdated := 0,
      archived := 0, npmPackages := 0, pythonPackages := 0 }
  have hsf := foldlRepo_sums now repos
    { accountAgeDays := accountAgeOf user now, repos := (repos.length : Int), stars := 0,
      forks := 0, followers := user.followers, recentCommits := 0, recentlyUpdated := 0,
      archived := 0, npmPackages := 0, pythonPackages := 0 }
    (by simp) (by simp) hr (by simpa using hsb) (by simpa using hfb)
  have h2 := foldlEvent_spec now events (repos.foldl (metricsRepoStep now)
    { accountAgeDays := accountAgeOf user now, repos := (repos.length : Int), stars := 0,
      forks := 0, followers := user.followers, recentCommits := 0, recentlyUpdated := 0,
      archived := 0, npmPackages := 0, pythonPackages := 0 })
  simp only at h1 hsf h2
  have hrc := foldlEvent_recentCommits now events (repos.foldl (metricsRepoStep now)
    { accountAgeDays := accountAgeOf user now, repos := (repos.length : Int), stars := 0,
      forks := 0, followers := user.followers, recentCommits := 0, recentlyUpdated := 0,
      archived := 0, npmPackages := 0, pythonPackages := 0 })
    (by omega) (by omega)
  omega

/-- C4 witness: the amended theorem instantiated at an empty profile with
creation time 0 and now 400, whose star, fork and commit totals are 0. -/
theorem C4_witness :
    uEmpty.createdAt ≤ (400:ℚ) ∧ 0 ≤ (analysisMetrics uEmpty [] [] 400).accountAgeDays ∧
      0 ≤ (analysisMetrics uEmpty [] [] 400).stars :=
  ⟨by norm_num [uEmpty],
   (C4_amended_counters_nonneg uEmpty [] [] 400 (by norm_num [uEmpty]) (by decide)
      (by simp) (by norm_num [starsSum]) (by norm_num [forksSum])
      (by norm_num [commitsSum])).1,
   (C4_amended_counters_nonneg uEmpty [] [] 400 (by norm_num [uEmpty]) (by decide)
      (by simp) (by norm_num [starsSum]) (by norm_num [forksSum])
      (by norm_num [commitsSum])).2.2.1⟩

/-- C5 counterexample: with 5 of 10 repositories archived the archived
fraction is exactly one half, yet the Maintenance score is 65 (not the
unadjusted 50): the strict comparison excludes the +30 band at exactly 0.5
but the `> 0.3` band fires and adds +15, refuting the claim that no
archived adjustment fires at fraction exactly 0.5. -/
theorem C5_counterexample :
    calculateMaintenanceScore mScenarioHalf 10 = 65 ∧
    (mScenarioHalf.archived : ℚ) / ((10 : Int) : ℚ) = 1/2 := by
  constructor
  · norm_num [calculateMaintenanceScore, clamp, mScenarioHalf, mScenario]
  · norm_num [mScenarioHalf, mScenario]

/-- C5 (amended): at archived fraction exactly 0.3 no archived adjustment
fires (an analysis with the fraction pinned at 3/10 scores the same as one
with zero archived repositories), the concrete scenario (10 repos, 3
archived, 2 recently updated, 5 stars, 1 fork, 5 followers, 3 commits)
yields Maintenance 50 and Community 75, while at archived fraction exactly
0.5 the +30 band does not fire but the `> 0.3` band does, yielding 65. -/
theorem C5_amended_boundary (m : Metrics) (t : Int) (ht : t ≠ 0)
    (hq : (m.archived : ℚ) / (t : ℚ) = 3/10) :
    calculateMaintenanceScore mScenario 10 = 50 ∧
    calculateCommunityScore mScenario = 75 ∧
    calculateMaintenanceScore m t = calculateMaintenanceScore { m with archived := 0 } t ∧
    calculateMaintenanceScore mScenarioHalf 10 = 65 := by
  refine ⟨by norm_num [calculateMaintenanceScore, clamp, mScenario],
    by norm_num [calculateCommunityScore, clamp, mScenario],
    ?_,
    by norm_num [calculateMaintenanceScore, clamp, mScenarioHalf, mScenario]⟩
  simp only [calculateMaintenanceScore, if_neg ht]
  rw [hq]
  norm_num

/-- C5 witness: the amended theorem instantiated at the scenario metrics,
whose archived fraction is exactly 3/10. -/
theorem C5_witness :
    calculateMaintenanceScore mScenario 10 =
      calculateMaintenanceScore { mScenario with archived := 0 } 10 :=
  (C5_amended_boundary mScenario 10 (by decide) (by norm_num [mScenario])).2.2.1

/-- C6: for the scenario with account age 400 days, zero repositories,
followers and recent commits, and every contact field and the display name
empty, the Identity score equals 50, the positives contain the
established-account entry and the warnings contain the no-contact entry. -/
theorem C6_identity_scenario :
    calculateIdentityScore uC6 400 = 50 ∧
    "Established account (1 years)" ∈ (generateFlags uC6 mC6 400 0).positives ∧
    "No verifiable contact information or affiliation" ∈
      (generateFlags uC6 mC6 400 0).warnings := by
  refine ⟨?_, by decide, by decide⟩
  norm_num [calculateIdentityScore, clamp, uC6, uEmpty]

/-- C7: the scoring engine is deterministic and reads no hidden state: its
output is a function of the Metrics value, the repository list, the account
age and the five profile fields the identity axis consumes; any two profiles
agreeing on those five fields produce identical RiskScores. -/
theorem C7_engine_reads_only_listed_fields (u₁ u₂ : GitHubUser) (repos : List GitHubRepo)
    (m : Metrics) (age : Int)
    (hcom : u₁.company = u₂.company) (hem : u₁.email = u₂.email) (hbl : u₁.blog = u₂.blog)
    (htw : u₁.twitterUsername = u₂.twitterUsername) (hnm : u₁.name = u₂.name) :
    computeRiskScores u₁ repos m age = computeRiskScores u₂ repos m age := by
  unfold computeRiskScores calculateIdentityScore
  rw [hcom, hem, hbl, htw, hnm]

/-- C7 witness: two concrete profiles differing in login and bio only
receive identical RiskScores. -/
theorem C7_witness : computeRiskScores uAlice [] mZero 0 = computeRiskScores uBob [] mZero 0 :=
  C7_engine_reads_only_listed_fields uAlice uBob [] mZero 0 rfl rfl rfl rfl rfl

/-- C8: in the flag generator, age below 180 days puts the age message in
the red flags, age above 365 days puts the established-account message in
the positives, and any age from 180 to 365 days inclusive contributes
nothing: the red-flag and positive lists consist exactly of the non-age
rule contributions. -/
theorem C8_age_flag_bands (u : GitHubUser) (m : Metrics) (age t : Int) :
    (age < 180 → ageRedFlagMsg age ∈ (generateFlags u m age t).redFlags) ∧
    (age > 365 → agePositiveMsg age ∈ (generateFlags u m age t).positives) ∧
    (180 ≤ age → age ≤ 365 →
      (generateFlags u m age t).redFlags =
        archivedRedFlags m t ++ maintenanceRedFlags m t ∧
      (generateFlags u m age t).positives =
        followerPositives m ++ activityPositives m ++ contactPositives u) := by
  refine ⟨fun h => ?_, fun h => ?_, fun h1 h2 => ?_⟩
  · simp [generateFlags, ageRedFlags, if_pos h]
  · have h' : ¬ age < 180 := by omega
    simp [generateFlags, agePositives, if_neg h', if_pos h]
  · have h' : ¬ age < 180 := by omega
    have h'' : ¬ age > 365 := by omega
    constructor
    · simp [generateFlags, ageRedFlags, if_neg h']
    · simp [generateFlags, agePositives, if_neg h', if_neg h'']

/-- C8 witness: the three age bands instantiated at ages 100, 400 and 200. -/
theorem C8_witness :
    ageRedFlagMsg 100 ∈ (generateFlags uEmpty mZero 100 0).redFlags ∧
    agePositiveMsg 400 ∈ (generateFlags uEmpty mZero 400 0).positives ∧
    (generateFlags uEmpty mZero 200 0).redFlags =
      archivedRedFlags mZero 0 ++ maintenanceRedFlags mZero 0 :=
  ⟨(C8_age_flag_bands uEmpty mZero 100 0).1 (by decide),
   (C8_age_flag_bands uEmpty mZero 400 0).2.1 (by decide),
   ((C8_age_flag_bands uEmpty mZero 200 0).2.2 (by decide) (by decide)).1⟩

/-- C9: the Metrics produced by the aggregator satisfy archived count at
most the repo count, recently-updated count at most the repo count, and the
two language-bucket counts summing to at most the repo count. -/
theorem C9_counters_bounded_by_repo_count (user : GitHubUser) (repos : List GitHubRepo)
    (events : List GitHubEvent) (accountAge : Int) (now : ℚ) :
    (calculateMetrics user repos events accountAge now).archived ≤
      (calculateMetrics user repos events accountAge now).repos ∧
    (calculateMetrics user repos events accountAge now).recentlyUpdated ≤
      (calculateMetrics user repos events accountAge now).repos ∧
    (calculateMetrics user repos events accountAge now).npmPackages +
      (calculateMetrics user repos events accountAge now).pythonPackages ≤
      (calculateMetrics user repos events accountAge now).repos := by
  unfold calculateMetrics
  dsimp only
  have h1 := foldlRepo_spec now repos
    { accountAgeDays := accountAge, repos := (repos.length : Int), stars := 0, forks := 0,
      followers := user.followers, recentCommits := 0, recentlyUpdated := 0, archived := 0,
      npmPackages := 0, pythonPackages := 0 }
  have h2 := foldlEvent_spec now events (repos.foldl (metricsRepoStep now)
    { accountAgeDays := accountAge, repos := (repos.length : Int), stars := 0, forks := 0,
      followers := user.followers, recentCommits := 0, recentlyUpdated := 0, archived := 0,
      npmPackages := 0, pythonPackages := 0 })
  simp only at h1 h2
  omega

/-- C10: the flag generator returns at most 3 red flags, 4 warnings and 5
positives, and each paired rule is mutually exclusive: the age red flag and
age positive, the low-follower warning and strong-following positive, the
low-activity warning and active-contributor positive, and the no-contact
warning against the company and blog positives. -/
theorem C10_flag_caps_and_exclusions (u : GitHubUser) (m : Metrics) (age t : Int) :
    (generateFlags u m age t).redFlags.length ≤ 3 ∧
    (generateFlags u m age t).warnings.length ≤ 4 ∧
    (generateFlags u m age t).positives.length ≤ 5 ∧
    (ageRedFlags age = [] ∨ agePositives age = []) ∧
    (followerWarnings m = [] ∨ followerPositives m = []) ∧
    (activityWarnings m = [] ∨ activityPositives m = []) ∧
    (contactWarnings u = [] ∨ contactPositives u = []) := by
  have l1 : (ageRedFlags age).length ≤ 1 := by unfold ageRedFlags; split <;> simp
  have l2 : (archivedRedFlags m t).length ≤ 1 := by unfold archivedRedFlags; split <;> simp
  have l3 : (maintenanceRedFlags m t).length ≤ 1 := by
    unfold maintenanceRedFlags; split <;> simp
  have l4 : (followerWarnings m).length ≤ 1 := by unfold followerWarnings; split <;> simp
  have l5 : (activityWarnings m).length ≤ 1 := by unfold activityWarnings; split <;> simp
  have l6 : (contactWarnings u).length ≤ 1 := by unfold contactWarnings; split <;> simp
  have l7 : (engagementWarnings m t).length ≤ 1 := by
    unfold engagementWarnings; split <;> simp
  have l8 : (agePositives age).length ≤ 1 := by
    unfold agePositives; split
    · simp
    · split <;> simp
  have l9 : (followerPositives m).length ≤ 1 := by
    unfold followerPositives; split
    · simp
    · split <;> simp
  have l10 : (activityPositives m).length ≤ 1 := by
    unfold activityPositives; split
    · simp
    · split <;> simp
  have l11 : (contactPositives u).length ≤ 2 := by
    unfold contactPositives; split
    · simp
    · split <;> split <;> simp
  refine ⟨?_, ?_, ?_, ?_, ?_, ?_, ?_⟩
  · simp only [generateFlags, List.length_append]; omega
  · simp only [generateFlags, List.length_append]; omega
  · simp only [generateFlags, List.length_append]; omega
  · by_cases h : age < 180
    · right; unfold agePositives; rw [if_pos h]
    · left; unfold ageRedFlags; rw [if_neg h]
  · by_cases h : m.followers < 10
    · right; unfold followerPositives; rw [if_pos h]
    · left; unfold followerWarnings; rw [if_neg h]
  · by_cases h : m.recentCommits < 10
    · right; unfold activityPositives; rw [if_pos h]
    · left; unfold activityWarnings; rw [if_neg h]
  · by_cases h : u.company = "" ∧ u.blog = "" ∧ u.email = ""
    · right; unfold contactPositives; rw [if_pos h]
    · left; unfold contactWarnings; rw [if_neg h]
